import Mathlib

/-!
Shallow embedding of the file-processing orchestration of
`sdc_aws_processing_lambda` (module
`lambda_function/src/file_processor/file_processor.py` and its entry
points).  Pure functions of the source become Lean functions; Python
exceptions become an explicit `Except` over a `PyExc` error type; the
side effects of one run (S3 downloads/uploads, lineage-store writes,
asynchronous re-invocations) become an explicit effect trace.
External collaborators (the `sdc_aws_utils` helpers, the calibration
callable, the relational store) enter as oracle parameters carrying
exactly the information the orchestration reads from them.
-/

/-- Python exception values, by class, as raised and caught in the source. -/
inductive PyExc
  | valueError (msg : String)
  | fileNotFoundError (msg : String)
  | typeError (msg : String)
  | indexError (msg : String)
  | keyError (msg : String)
  | operationalError (msg : String)
  | otherError (msg : String)
deriving Repr, DecidableEq

/-- The string an exception renders to, as Python `str(e)` used in log/response bodies. -/
def PyExc.message : PyExc → String
  | .valueError m => m
  | .fileNotFoundError m => m
  | .typeError m => m
  | .indexError m => m
  | .keyError m => m
  | .operationalError m => m
  | .otherError m => m

/-- The `Status` enum of `file_processor.py` (SUCCESS / PENDING / FAILED). -/
inductive Status
  | success
  | pending
  | failed
deriving Repr, DecidableEq

/-- The `.value` attribute of the `Status` enum members. -/
def Status.value : Status → String
  | .success => "success"
  | .pending => "pending"
  | .failed => "failed"

/-- The status dictionary built by `FileProcessor.build_status`.  A Python
dict with two mandatory keys and two optional keys; an optional key being
absent is modelled by the corresponding field being `none`. -/
structure StatusDict where
  processing_status : String
  processing_status_message : String
  origin_file_ids : Option (List Nat)
  processing_time_length : Option ℚ
deriving Repr, DecidableEq

/-- Python truthiness of the optional `total_time : float` argument:
`None` and `0.0` are falsy, any other number is truthy. -/
def timeTruthy : Option ℚ → Bool
  | none => false
  | some x => decide (x ≠ 0)

/-- Embedding of `FileProcessor.build_status(status, message, total_time=None,
origin_file_ids=None)`: always sets `processing_status` (the enum value) and
`processing_status_message`; sets `origin_file_ids` when the argument is not
`None`; sets `processing_time_length` only when `total_time` is truthy. -/
def build_status (status : Status) (message : String)
    (total_time : Option ℚ) (origin_file_ids : Option (List Nat)) : StatusDict :=
  { processing_status := status.value
    processing_status_message := message
    origin_file_ids := origin_file_ids
    processing_time_length := if timeTruthy total_time then total_time else none }

/-- A Python value as returned by `FileProcessor._calibrate_file`: a list of
filename strings (normal path), a single string (test-data path), or `None`
(after a recovered exception, falling off the end of the function). -/
inductive PyVal
  | vList (l : List String)
  | vStr (s : String)
  | vNone
deriving Repr, DecidableEq

/-- Python truthiness of a `PyVal`: empty list, empty string and `None` are falsy. -/
def pyTruthy : PyVal → Bool
  | .vList l => !l.isEmpty
  | .vStr s => !s.isEmpty
  | .vNone => false

/-- Python iteration over a `PyVal`: a list yields its elements, a string
yields its characters as one-character strings, `None` yields nothing (in
the source, iteration only ever happens on truthy values). -/
def pyIter : PyVal → List String
  | .vList l => l
  | .vStr s => s.toList.map (fun c => String.mk [c])
  | .vNone => []

/-- Python `Path(s).name`: the final path component. -/
def path_name (s : String) : String := (s.splitOn "/").getLastD s

/-- Embedding of `FileProcessor._calibrate_file`.  Oracle arguments:
`env_use_test_data` is `os.getenv("USE_INSTRUMENT_TEST_DATA")`;
`instrument_in_pkg` is whether `INSTR_TO_PKG[instrument]` succeeds (a
missing instrument raises `KeyError` inside the try block);
`test_data_branch` is the outcome of the bundled-test-data block when taken
(a single calibrated filename, or an exception); `process_result` is the
outcome of `calibration.process_file(Path(file_path))`.  The try/except of
the source recovers `ValueError` and `FileNotFoundError` (logged, function
returns `None`) and re-raises every other exception. -/
def calibrate_file (env_use_test_data : Option String) (instrument_in_pkg : Bool)
    (test_data_branch : Except PyExc String)
    (process_result : Except PyExc (List String)) : Except PyExc PyVal :=
  let body : Except PyExc PyVal :=
    if !instrument_in_pkg then
      .error (.keyError "instrument not in INSTR_TO_PKG")
    else if env_use_test_data = some "True" then
      match test_data_branch with
      | .ok calibrated_filename => .ok (.vStr calibrated_filename)
      | .error e => .error e
    else
      match process_result with
      | .ok files_list => .ok (.vList (files_list.map path_name))
      | .error e => .error e
  match body with
  | .ok v => .ok v
  | .error (.valueError _) => .ok .vNone
  | .error (.fileNotFoundError _) => .ok .vNone
  | .error e => .error e

/-- Whether an exception class is one `_calibrate_file` recovers from
(`ValueError` or `FileNotFoundError`). -/
def calRecoverable : PyExc → Bool
  | .valueError _ => true
  | .fileNotFoundError _ => true
  | _ => false

/-- The parsed science filename produced by the external
`science_filename_parser` (instrument, level, time, version). -/
structure ParsedFilename where
  instrument : String
  level : String
  time : String
  version : String
deriving Repr, DecidableEq

/-- An observable side effect of one orchestrator run. -/
inductive Effect
  | download (bucket key : String)
  | upload (bucket filename : String)
  | pushCall (bucket filename : String) (dry : Bool)
  | trackCall (key bucket : String) (status : StatusDict) (product_id : Option Nat)
deriving Repr, DecidableEq

/-- Modelled from the spec: `sdc_aws_utils.aws.get_science_file` (not part of
this repository) fetches the object from `bucket/key` into a local scratch
location derived from the parsed file key, or reuses that local path under
dry-run, in which case no network fetch is performed.  Returns the local
path and the network effect emitted. -/
def get_science_file_model (bucket key parsed_key : String) (dry_run : Bool) :
    String × List Effect :=
  ("/tmp/" ++ parsed_key, if dry_run then [] else [.download bucket key])

/-- Modelled from the spec: `sdc_aws_utils.aws.push_science_file` (not part of
this repository) uploads the calibrated artifact to the destination bucket,
with the upload skipped under dry-run.  The `pushCall` effect records the
invocation itself; the `upload` effect the mutating network call. -/
def push_science_file_model (bucket filename : String) (dry_run : Bool) :
    List Effect :=
  .pushCall bucket filename dry_run ::
    (if dry_run then [] else [.upload bucket filename])

/-- The oracle inputs of one `FileProcessor._process_file` run: constructor
arguments, results of the external pure helpers, and the outcomes of the
calibration call and of the first lineage-tracking call. -/
structure RunInput where
  instrument_bucket_name : String
  file_key : String
  environment : String
  parsed_file_key : String
  science_file : Except PyExc ParsedFilename
  get_instrument_bucket : String → String → String
  total_time : ℚ
  calibration : Except PyExc PyVal
  track1 : Option (Nat × Nat)
  create_s3_file_key : String → String

/-- The observable outcome of one `_process_file` run: the control-flow
result (normal return or propagated exception), the effect trace, the
parsed filename metadata obtained, and the destination keys derived for
calibrated outputs. -/
structure RunResult where
  outcome : Except PyExc Unit
  effects : List Effect
  parsed : Option ParsedFilename
  derived_keys : List String

/-- The per-output loop of `_process_file` (the `for calibrated_filename in
calibrated_filenames` block): derive the destination key, build a PENDING
status linked to the origin file id, push to the destination bucket, track
the new artifact. -/
def push_track_loop (inp : RunInput) (destination_bucket : String)
    (science_file_id science_product_id : Nat) (dry_run : Bool) :
    List String → List Effect
  | [] => []
  | calibrated_filename :: rest =>
      push_science_file_model destination_bucket calibrated_filename dry_run ++
      [.trackCall (inp.create_s3_file_key calibrated_filename) destination_bucket
        (build_status .pending
          ("File " ++ calibrated_filename ++ " Needs Further Processing")
          none (some [science_file_id]))
        (some science_product_id)] ++
      push_track_loop inp destination_bucket science_file_id science_product_id
        dry_run rest

/-- Embedding of `FileProcessor._process_file`.  Parse the file key, resolve
the destination bucket, fetch the file, calibrate, then branch on the
calibration outcome: falsy result yields a FAILED lineage record for the
original file; truthy result yields a SUCCESS record (with elapsed time)
whose returned ids are unpacked — when the tracker returned `None`
(tracking disabled or failed) the unpacking raises a `TypeError` — and then
the per-output push/track loop runs. -/
def process_file (inp : RunInput) (dry_run : Bool) : RunResult :=
  match inp.science_file with
  | .error e => ⟨.error e, [], none, []⟩
  | .ok science_file =>
    let destination_bucket :=
      inp.get_instrument_bucket science_file.instrument inp.environment
    let fetched := get_science_file_model inp.instrument_bucket_name inp.file_key
      inp.parsed_file_key dry_run
    let file_path := fetched.1
    match inp.calibration with
    | .error e => ⟨.error e, fetched.2, some science_file, []⟩
    | .ok calibrated_filenames =>
      if pyTruthy calibrated_filenames then
        let status := build_status .success "File Processed Successfully"
          (some inp.total_time) none
        let firstTrack := Effect.trackCall inp.file_key inp.instrument_bucket_name
          status none
        match inp.track1 with
        | none =>
          ⟨.error (.typeError "cannot unpack non-iterable NoneType"),
            fetched.2 ++ [firstTrack], some science_file, []⟩
        | some (science_file_id, science_product_id) =>
          let files := pyIter calibrated_filenames
          ⟨.ok (),
            fetched.2 ++ [firstTrack] ++
              push_track_loop inp destination_bucket science_file_id
                science_product_id dry_run files,
            some science_file,
            files.map inp.create_s3_file_key⟩
      else
        let status := build_status .failed
          ("Could Not Process " ++ file_path ++ " Further") none none
        ⟨.ok (),
          fetched.2 ++
            [.trackCall inp.file_key inp.instrument_bucket_name status none],
          some science_file, []⟩

/-- Decidable equality for `Except` outcomes over decidable components. -/
instance instDecEqExcept {ε α : Type} [DecidableEq ε] [DecidableEq α] :
    DecidableEq (Except ε α) := fun a b =>
  match a, b with
  | .ok x, .ok y =>
    if h : x = y then .isTrue (by subst h; rfl)
    else .isFalse (fun hh => h (Except.ok.inj hh))
  | .ok _, .error _ => .isFalse (fun hh => Except.noConfusion hh)
  | .error _, .ok _ => .isFalse (fun hh => Except.noConfusion hh)
  | .error x, .error y =>
    if h : x = y then .isTrue (by subst h; rfl)
    else .isFalse (fun hh => h (Except.error.inj hh))

/-- Whether the tenacity policy on `_track_file_metatracker` and `fetch_data`
retries an exception: `retry_if_exception_type(psycopg2.OperationalError)`. -/
def isOperational : PyExc → Bool
  | .operationalError _ => true
  | _ => false

/-- Semantics of the tenacity decorator `retry(retry=retry_if_exception_type(
psycopg2.OperationalError), wait=wait_random(min=2, max=10),
stop=stop_after_attempt(10), reraise=True)`: call the wrapped function; on a
retriable exception sleep a random 2 to 10 time units (sleeping is not
observable in this embedding) and call again, up to the attempt budget; with
the budget exhausted, or on a non-retriable exception, re-raise.  Returns
the final outcome and the number of attempts made; `attempt` counts the
current call and `fuel` the calls still allowed after it. -/
def retry_go {A : Type} (retriable : PyExc → Bool) (f : Nat → Except PyExc A) :
    Nat → Nat → Except PyExc A × Nat
  | attempt, fuel =>
    match f attempt, fuel with
    | .ok a, _ => (.ok a, attempt)
    | .error e, 0 => (.error e, attempt)
    | .error e, fuel' + 1 =>
      if retriable e then retry_go retriable f (attempt + 1) fuel'
      else (.error e, attempt)

/-- The tenacity policy of the source applied to a wrapped call:
`stop_after_attempt(10)` allows ten calls in total. -/
def retry_policy {A : Type} (f : Nat → Except PyExc A) : Except PyExc A × Nat :=
  retry_go isOperational f 1 9

/-- The oracle inputs of one `FileProcessor._track_file_metatracker` call:
the environment lookup and the validation facts about the `file_path`
argument, plus the outcome of the store interaction (secret retrieval,
engine creation, table creation and the `meta_tracker.track` call, any of
which may raise). -/
structure TrackEnv where
  rds_secret_arn : Option String
  file_path_truthy : Bool
  file_path_is_path : Bool
  file_exists : Bool
  store : Except PyExc (Nat × Nat)
deriving Repr, DecidableEq

/-- The body of `_track_file_metatracker` (inside the tenacity decorator).
When the secret is absent the guarded block is skipped and the function
returns `None`.  Otherwise the whole block runs under `try`: validation
failures raise `ValueError` / `FileNotFoundError`, the store interaction may
raise, and the trailing `except Exception` catches every exception, logs it
and returns `None` — so the body itself never lets an exception escape. -/
def track_body (env : TrackEnv) : Except PyExc (Option (Nat × Nat)) :=
  match env.rds_secret_arn with
  | none => .ok none
  | some _ =>
    let inner : Except PyExc (Option (Nat × Nat)) :=
      if !env.file_path_truthy || !env.file_path_is_path then
        .error (.valueError "Invalid file path provided.")
      else if !env.file_exists then
        .error (.fileNotFoundError "File not found")
      else
        match env.store with
        | .ok ids => .ok (some ids)
        | .error e => .error e
    match inner with
    | .ok v => .ok v
    | .error _ => .ok none

/-- Embedding of `FileProcessor._track_file_metatracker`: the body wrapped in
the tenacity retry policy.  Returns the outcome and the number of attempts
the policy made. -/
def track_file_metatracker (env : TrackEnv) :
    Except PyExc (Option (Nat × Nat)) × Nat :=
  retry_policy (fun _ => track_body env)

/-- A column value in a row returned by the failed-files query of
`fetch_data` (`cursor.fetchall`). -/
inductive Cell
  | s (v : String)
  | arr (v : List Int)
  | null
deriving Repr, DecidableEq

/-- The select list of the failed-files query in `fetch_data`: it projects
three columns per row. -/
def fetch_query_columns : List String := ["s3_key", "s3_bucket", "origin_file_ids"]

/-- An observable side effect of one `fetch_data` call. -/
inductive FetchEffect
  | invoke (function_name : String) (s3_key s3_bucket : Cell)
  | logError (msg : String)
deriving Repr, DecidableEq

/-- The oracle inputs of one `fetch_data` call: the environment lookups, the
outcome of reaching the store (secret retrieval, `psycopg2.connect`,
`cursor.execute`), and the rows `cursor.fetchall` returned. -/
structure FetchEnv where
  swxsoc_mission : Option String
  rds_secret_arn : Option String
  lambda_function_name : Option String
  connect : Except PyExc Unit
  query_results : List (List Cell)
deriving Repr, DecidableEq

/-- The `for s3_key, s3_bucket in results` loop of `fetch_data`: each row is
unpacked into exactly two names — a row of any other width raises
`ValueError` — and an asynchronous Lambda invocation is dispatched with the
SNS-wrapped single-file payload.  Returns the invocations dispatched before
a failure, if any. -/
def fetch_loop (function_name : String) :
    List (List Cell) → Except (PyExc × List FetchEffect) (List FetchEffect)
  | [] => .ok []
  | row :: rest =>
    match row with
    | [s3_key, s3_bucket] =>
      match fetch_loop function_name rest with
      | .ok effs => .ok (.invoke function_name s3_key s3_bucket :: effs)
      | .error (e, effs) => .error (e, .invoke function_name s3_key s3_bucket :: effs)
    | _ => .error (.valueError "too many values to unpack (expected 2)", [])

/-- The body of `fetch_data` (inside the tenacity decorator): missing
environment values log and return early; the store interaction and the
dispatch loop run under `try`, whose `except Exception` logs and returns —
the body never lets an exception escape. -/
def fetch_body (env : FetchEnv) : List FetchEffect :=
  match env.rds_secret_arn with
  | none => [.logError "No RDS Secret ARN found in environment variables."]
  | some _ =>
    match env.lambda_function_name with
    | none => [.logError "No Lambda function name found in environment variables."]
    | some function_name =>
      match env.connect with
      | .error e => [.logError ("Error in fetch_data(): " ++ e.message)]
      | .ok _ =>
        match fetch_loop function_name env.query_results with
        | .ok effs => effs
        | .error (e, effs) =>
          effs ++ [.logError ("Error in fetch_data(): " ++ e.message)]

/-- Embedding of `fetch_data`: the body wrapped in the same tenacity policy
as the tracker (the body never raises, so the wrapped call always succeeds
on the first attempt). -/
def fetch_data (env : FetchEnv) : List FetchEffect :=
  match (retry_policy (fun _ => Except.ok (fetch_body env))).1 with
  | .ok effs => effs
  | .error _ => []

/-- One entry of the decoded `Records` array of the SNS message: a
well-formed S3 notification carrying bucket and key, or a record whose
nested lookups (`record["s3"]["bucket"]["name"]`, `["object"]["key"]`)
raise `KeyError`. -/
inductive S3Item
  | record (bucket key : String)
  | malformed
deriving Repr, DecidableEq

/-- One entry of the top-level `Records` array of the inbound event: an
SNS-wrapped entry whose `Message` string decodes to a list of S3 records
(or fails to decode), or a direct S3 record, which carries no `Sns` key. -/
inductive EventRecord
  | snsWrapped (message : Except PyExc (List S3Item))
  | direct (item : S3Item)
deriving Repr, DecidableEq

/-- The inbound Lambda event: `records = none` models an event without a
`Records` key (the source substitutes the default `[{}]`). -/
structure Event where
  records : Option (List EventRecord)
deriving Repr, DecidableEq

/-- The HTTP-style response returned by `handle_event`. -/
structure Resp where
  statusCode : Nat
  body : String
deriving Repr, DecidableEq

/-- An observable side effect of one `handle_event` call. -/
inductive HandlerEffect
  | fetchData
  | processFile (bucket key : String)
deriving Repr, DecidableEq

/-- The body of `json.dumps` on the error dictionary built in the
`except` branch of `handle_event`. -/
def json_error (msg : String) : String := "\x7b\"error\": \"" ++ msg ++ "\"\x7d"

/-- The record-extraction step of `handle_event`:
`event.get("Records", [{}])[0].get("Sns", {}).get("Message", "{}")` followed
by `json.loads(...).get("Records", [])`.  An absent `Records` key defaults
to one empty dict, which has no `Sns` key and so yields the default message
string and zero records; a present but empty `Records` list raises
`IndexError`; a direct (non-SNS) first record likewise yields the default
message string and zero records. -/
def decode_records (event : Event) : Except PyExc (List S3Item) :=
  match event.records with
  | none => .ok []
  | some [] => .error (.indexError "list index out of range")
  | some (r :: _) =>
    match r with
    | .snsWrapped message => message
    | .direct _ => .ok []

/-- The `for s3_event in records` loop of `handle_event`: each record's
bucket and key are extracted (a malformed record raises `KeyError`) and a
`FileProcessor` is constructed for the pair, which runs the orchestrator;
the first exception aborts the loop. -/
def handle_loop (proc : String → String → Except PyExc Unit) :
    List S3Item → Except (PyExc × List HandlerEffect) (List HandlerEffect)
  | [] => .ok []
  | .malformed :: _ => .error (.keyError "KeyError", [])
  | .record s3_bucket file_key :: rest =>
    match proc s3_bucket file_key with
    | .error e => .error (e, [.processFile s3_bucket file_key])
    | .ok _ =>
      match handle_loop proc rest with
      | .ok effs => .ok (.processFile s3_bucket file_key :: effs)
      | .error (e, effs) => .error (e, .processFile s3_bucket file_key :: effs)

/-- Embedding of `handle_event`: decode the envelope; with no records,
delegate to `fetch_data` and return 200; otherwise run the orchestrator
once per record, returning 200 when every run succeeds.  Every exception
raised anywhere inside is caught by the surrounding `try` and converted to
a 500 response whose body is the JSON-encoded error message. -/
def handle_event (proc : String → String → Except PyExc Unit) (event : Event) :
    Resp × List HandlerEffect :=
  match decode_records event with
  | .error e => (⟨500, json_error e.message⟩, [])
  | .ok [] => (⟨200, "Reprocessed data from database."⟩, [.fetchData])
  | .ok (item :: rest) =>
    match handle_loop proc (item :: rest) with
    | .ok effs => (⟨200, "Files processed successfully."⟩, effs)
    | .error (e, effs) => (⟨500, json_error e.message⟩, effs)

/-- Whether an effect is an invocation of `push_science_file`. -/
def isPushCall : Effect → Bool
  | .pushCall _ _ _ => true
  | _ => false

/-- Whether an effect is a mutating network operation (S3 download or upload). -/
def isNetworkOp : Effect → Bool
  | .download _ _ => true
  | .upload _ _ => true
  | _ => false

/-- Whether an effect is a lineage-tracking call whose status is PENDING. -/
def isPendingTrack : Effect → Bool
  | .trackCall _ _ st _ => st.processing_status == "pending"
  | _ => false

/-- Whether an effect is a lineage-tracking call whose status is FAILED. -/
def isFailedTrack : Effect → Bool
  | .trackCall _ _ st _ => st.processing_status == "failed"
  | _ => false

/-- The `origin_file_ids` carried by each PENDING lineage-tracking call of a
trace, in order. -/
def pendingOrigins (effs : List Effect) : List (Option (List Nat)) :=
  effs.filterMap fun e =>
    match e with
    | .trackCall _ _ st _ =>
      if st.processing_status == "pending" then some st.origin_file_ids else none
    | _ => none

/-- Whether a `fetch_data` effect is an asynchronous Lambda invocation. -/
def isInvoke : FetchEffect → Bool
  | .invoke _ _ _ => true
  | _ => false

/-- A tracker environment with the secret configured whose store interaction
fails with a transient `psycopg2.OperationalError` while connecting. -/
def trackEnvTransient : TrackEnv :=
  ⟨some "arn:aws:secretsmanager:us-east-1:secret:rds", true, true, true,
    .error (.operationalError "could not connect to server: Connection refused")⟩

/-- A tracker environment with the secret configured whose `file_path`
argument names a nonexistent local file (a validation failure). -/
def trackEnvMissingFile : TrackEnv :=
  ⟨some "arn:aws:secretsmanager:us-east-1:secret:rds", true, true, false, .ok (1, 2)⟩

/-- A tracker environment with the secret configured whose `file_path`
argument is not a `Path` (a validation failure). -/
def trackEnvBadPath : TrackEnv :=
  ⟨some "arn:aws:secretsmanager:us-east-1:secret:rds2", true, false, true, .ok (1, 2)⟩

/-- A tracker environment without the database secret configured. -/
def trackEnvNoSecret : TrackEnv := ⟨none, true, true, true, .ok (7, 8)⟩

/-- A run with a successfully parsed file whose calibration produced one
output, executed with `RDS_SECRET_ARN` absent, so that the first
lineage-tracking call returns `None`. -/
def runInputNoSecret : RunInput :=
  { instrument_bucket_name := "hermes-eea"
    file_key := "l0/2023/042/hermes_EEA_l0_2023042-000000_v0.bin"
    environment := "PRODUCTION"
    parsed_file_key := "hermes_EEA_l0_2023042-000000_v0.bin"
    science_file := .ok ⟨"eea", "l0", "2023042-000000", "v0"⟩
    get_instrument_bucket := fun _ _ => "hermes-eea"
    total_time := 5
    calibration := .ok (.vList ["hermes_eea_l1_20230211T000000_v1.0.0.cdf"])
    track1 := none
    create_s3_file_key := fun f => "l1/2023/02/" ++ f }

/-- A `fetch_data` environment whose failed-files query returned two rows,
each with the three columns the query selects. -/
def fetchEnvTwoFailedRows : FetchEnv :=
  { swxsoc_mission := some "hermes"
    rds_secret_arn := some "arn:aws:secretsmanager:us-east-1:secret:rds"
    lambda_function_name := some "sdc_aws_processing_lambda_function"
    connect := .ok ()
    query_results :=
      [[.s "l0/2023/042/file_a_v0.bin", .s "hermes-eea", .arr [11]],
       [.s "l0/2023/043/file_b_v0.bin", .s "hermes-eea", .arr [12]]] }

/-- A direct-shape (non-SNS-wrapped) inbound event carrying one S3 record. -/
def directShapeEvent : Event :=
  ⟨some [.direct (.record "hermes-eea" "l0/2023/042/hermes_EEA_l0_2023042-000000_v0.bin")]⟩

/-- A run with a successfully parsed file, two calibration outputs, a
configured tracker that assigned ids (3, 4), and a positive elapsed time. -/
def runInputTwoOutputs : RunInput :=
  { instrument_bucket_name := "hermes-merit"
    file_key := "l0/2023/042/hermes_MRT_l0_2023042-000000_v0.bin"
    environment := "PRODUCTION"
    parsed_file_key := "hermes_MRT_l0_2023042-000000_v0.bin"
    science_file := .ok ⟨"merit", "l0", "2023042-000000", "v0"⟩
    get_instrument_bucket := fun _ _ => "hermes-merit"
    total_time := 7
    calibration := .ok (.vList
      ["hermes_mrt_l1_20230211T000000_v1.0.0.cdf",
       "hermes_mrt_ql_20230211T000000_v1.0.0.cdf"])
    track1 := some (3, 4)
    create_s3_file_key := fun f => "l1/2023/02/" ++ f }

/-- A run with a successfully parsed file whose calibration returned an
empty list of outputs. -/
def runInputZeroOutputs : RunInput :=
  { instrument_bucket_name := "hermes-nemisis"
    file_key := "l0/2023/042/hermes_NEM_l0_2023042-000000_v0.bin"
    environment := "PRODUCTION"
    parsed_file_key := "hermes_NEM_l0_2023042-000000_v0.bin"
    science_file := .ok ⟨"nemisis", "l0", "2023042-000000", "v0"⟩
    get_instrument_bucket := fun _ _ => "hermes-nemisis"
    total_time := 2
    calibration := .ok (.vList [])
    track1 := some (5, 6)
    create_s3_file_key := fun f => "l1/2023/02/" ++ f }

/-- An SNS-wrapped inbound event whose decoded message carries one
well-formed S3 record. -/
def wrappedOneRecordEvent : Event :=
  ⟨some [.snsWrapped (.ok
    [.record "hermes-spani" "l0/2023/042/hermes_SPANI_l0_2023042-000000_v0.bin"])]⟩

theorem pendingOrigins_append (xs ys : List Effect) :
    pendingOrigins (xs ++ ys) = pendingOrigins xs ++ pendingOrigins ys := by
  simp [pendingOrigins, List.filterMap_append]

theorem push_track_loop_pendingOrigins (inp : RunInput) (dest : String)
    (fid pid : Nat) (dry : Bool) (files : List String) :
    pendingOrigins (push_track_loop inp dest fid pid dry files) =
      List.replicate files.length (some [fid]) := by
  induction files with
  | nil => rfl
  | cons f rest ih =>
    cases dry <;>
      simp [push_track_loop, push_science_file_model, pendingOrigins,
        List.filterMap_append, build_status, timeTruthy, Status.value] at ih ⊢ <;>
      simp [List.replicate_succ, ih]

theorem push_track_loop_pushCount (inp : RunInput) (dest : String)
    (fid pid : Nat) (dry : Bool) (files : List String) :
    ((push_track_loop inp dest fid pid dry files).filter isPushCall).length =
      files.length := by
  induction files with
  | nil => rfl
  | cons f rest ih =>
    cases dry <;>
      simp [push_track_loop, push_science_file_model, List.filter_append,
        isPushCall] at ih ⊢ <;>
      simpa using ih

theorem push_track_loop_network_dry (inp : RunInput) (dest : String)
    (fid pid : Nat) (files : List String) :
    (push_track_loop inp dest fid pid true files).filter isNetworkOp = [] := by
  induction files with
  | nil => rfl
  | cons f rest ih =>
    simp [push_track_loop, push_science_file_model, List.filter_append,
      isNetworkOp] at ih ⊢
    simpa using ih

/-- C10: every `build_status` result contains `processing_status` (the enum
value string) and `processing_status_message`; it contains
`origin_file_ids` exactly when that argument is not `None`; and it contains
`processing_time_length` only when `total_time` is truthy — in particular a
`total_time` of exactly `0.0` or `None` causes the timing field to be
omitted. -/
theorem build_status_fields (s : Status) (m : String) (t : Option ℚ)
    (o : Option (List Nat)) :
    (build_status s m t o).processing_status = s.value ∧
    (build_status s m t o).processing_status_message = m ∧
    ((build_status s m t o).origin_file_ids.isSome ↔ o.isSome) ∧
    ((build_status s m t o).processing_time_length.isSome ↔ timeTruthy t = true) ∧
    (build_status s m (some 0) o).processing_time_length = none ∧
    (build_status s m none o).processing_time_length = none := by
  refine ⟨rfl, rfl, Iff.rfl, ?_, ?_, rfl⟩
  · cases t with
    | none => simp [build_status, timeTruthy]
    | some x =>
      by_cases hx : x = 0 <;> simp [build_status, timeTruthy, hx]
  · simp [build_status, timeTruthy]

/-- C10 witness: `build_status` evaluated at concrete inputs. -/
theorem build_status_fields_witness :
    (build_status .pending "File Needs Further Processing" (some 0) (some [3])).processing_status = "pending" ∧
    (build_status .pending "File Needs Further Processing" (some 0) (some [3])).origin_file_ids.isSome ∧
    (build_status .pending "File Needs Further Processing" (some 0) (some [3])).processing_time_length = none := by
  have h := build_status_fields .pending "File Needs Further Processing" (some 0) (some [3])
  exact ⟨h.1, by simpa using h.2.2.1.mpr (by simp), h.2.2.2.2.1⟩

/-- C2: when calibration returns zero output filenames (an empty list, or
`None` after a recovered error), `_process_file` builds a FAILED status,
records lineage for the original file with that status, performs no push or
upload call, and returns without raising. -/
theorem process_file_zero_outputs_failed (inp : RunInput) (dry : Bool)
    (p : ParsedFilename)
    (hp : inp.science_file = .ok p)
    (hc : inp.calibration = .ok (.vList []) ∨ inp.calibration = .ok .vNone) :
    (process_file inp dry).outcome = .ok () ∧
    (process_file inp dry).effects =
      (get_science_file_model inp.instrument_bucket_name inp.file_key
        inp.parsed_file_key dry).2 ++
      [.trackCall inp.file_key inp.instrument_bucket_name
        (build_status .failed
          ("Could Not Process " ++ ("/tmp/" ++ inp.parsed_file_key) ++ " Further")
          none none) none] ∧
    (build_status .failed
      ("Could Not Process " ++ ("/tmp/" ++ inp.parsed_file_key) ++ " Further")
      none none).processing_status = "failed" ∧
    (process_file inp dry).effects.filter isPushCall = [] ∧
    (process_file inp dry).effects.filter (fun e =>
      match e with | .upload _ _ => true | _ => false) = [] := by
  rcases hc with hc | hc <;>
    cases dry <;>
      refine ⟨?_, ?_, rfl, ?_, ?_⟩ <;>
        simp [process_file, hp, hc, pyTruthy, get_science_file_model,
          isPushCall, List.filter_append]

/-- C2 witness: a concrete zero-output run evaluated through the theorem. -/
theorem process_file_zero_outputs_failed_witness :
    (process_file runInputZeroOutputs false).outcome = .ok () ∧
    (process_file runInputZeroOutputs false).effects.filter isPushCall = [] := by
  have h := process_file_zero_outputs_failed runInputZeroOutputs false
    ⟨"nemisis", "l0", "2023042-000000", "v0"⟩ rfl (Or.inl rfl)
  exact ⟨h.1, h.2.2.2.1⟩

/-- C1: when calibration returns N at least 1 output filenames and the first
lineage write assigned ids (with a nonzero elapsed time), `_process_file`
first records a SUCCESS status carrying the elapsed calibration time for the
original file, then for each output derives its destination key, builds a
PENDING status whose `origin_file_ids` is exactly the one-element list of
the original file's id, performs one push to the destination bucket and one
lineage-tracking call for the new artifact — yielding exactly N
PENDING-status records and N push calls. -/
theorem process_file_n_outputs_pending_and_push
    (inp : RunInput) (dry : Bool) (p : ParsedFilename) (files : List String)
    (fid pid : Nat)
    (hp : inp.science_file = .ok p)
    (hc : inp.calibration = .ok (.vList files))
    (hf : files ≠ [])
    (ht : inp.track1 = some (fid, pid))
    (htt : inp.total_time ≠ 0) :
    (process_file inp dry).outcome = .ok () ∧
    (process_file inp dry).effects =
      (get_science_file_model inp.instrument_bucket_name inp.file_key
        inp.parsed_file_key dry).2 ++
      [.trackCall inp.file_key inp.instrument_bucket_name
        (build_status .success "File Processed Successfully"
          (some inp.total_time) none) none] ++
      push_track_loop inp (inp.get_instrument_bucket p.instrument inp.environment)
        fid pid dry files ∧
    (build_status .success "File Processed Successfully" (some inp.total_time)
      none).processing_time_length = some inp.total_time ∧
    pendingOrigins (process_file inp dry).effects =
      List.replicate files.length (some [fid]) ∧
    ((process_file inp dry).effects.filter isPushCall).length = files.length ∧
    (process_file inp dry).derived_keys = files.map inp.create_s3_file_key := by
  cases files with
  | nil => exact absurd rfl hf
  | cons f rest =>
    have heff : (process_file inp dry).effects =
        (get_science_file_model inp.instrument_bucket_name inp.file_key
          inp.parsed_file_key dry).2 ++
        [.trackCall inp.file_key inp.instrument_bucket_name
          (build_status .success "File Processed Successfully"
            (some inp.total_time) none) none] ++
        push_track_loop inp
          (inp.get_instrument_bucket p.instrument inp.environment)
          fid pid dry (f :: rest) := by
      simp [process_file, hp, hc, ht, pyTruthy, pyIter]
    refine ⟨?_, heff, ?_, ?_, ?_, ?_⟩
    · simp [process_file, hp, hc, ht, pyTruthy]
    · simp [build_status, timeTruthy, htt]
    · rw [heff, pendingOrigins_append, pendingOrigins_append,
        push_track_loop_pendingOrigins]
      cases dry <;>
        simp [pendingOrigins, get_science_file_model, build_status, timeTruthy,
          Status.value, htt]
    · rw [heff]
      simp only [List.filter_append, List.length_append,
        push_track_loop_pushCount]
      cases dry <;>
        simp [get_science_file_model, isPushCall]
    · simp [process_file, hp, hc, ht, pyTruthy, pyIter]

/-- C1 witness: a concrete two-output run evaluated through the theorem. -/
theorem process_file_n_outputs_pending_and_push_witness :
    (process_file runInputTwoOutputs false).outcome = .ok () ∧
    pendingOrigins (process_file runInputTwoOutputs false).effects =
      [some [3], some [3]] ∧
    ((process_file runInputTwoOutputs false).effects.filter isPushCall).length = 2 := by
  have h := process_file_n_outputs_pending_and_push runInputTwoOutputs false
    ⟨"merit", "l0", "2023042-000000", "v0"⟩
    ["hermes_mrt_l1_20230211T000000_v1.0.0.cdf",
     "hermes_mrt_ql_20230211T000000_v1.0.0.cdf"]
    3 4 rfl rfl (by simp) rfl (by norm_num [runInputTwoOutputs])
  exact ⟨h.1, by simpa using h.2.2.2.1, by simpa using h.2.2.2.2.1⟩

/-- C9: a dry-run orchestrator run performs no download or upload network
operation, and the dry-run flag does not influence parsing or key
derivation: the parsed filename metadata and the derived destination keys
are identical to those of the non-dry-run run on the same inputs. -/
theorem process_file_dry_run_noninterference (inp : RunInput) :
    (process_file inp true).effects.filter isNetworkOp = [] ∧
    (process_file inp true).parsed = (process_file inp false).parsed ∧
    (process_file inp true).derived_keys = (process_file inp false).derived_keys := by
  rcases hsf : inp.science_file with e | p
  · simp [process_file, hsf]
  · rcases hc : inp.calibration with e | v
    · simp [process_file, hsf, hc, get_science_file_model]
    · cases htv : pyTruthy v
      · simp [process_file, hsf, hc, htv, get_science_file_model, isNetworkOp,
          List.filter_append]
      · rcases htr : inp.track1 with _ | ⟨fid, pid⟩
        · simp [process_file, hsf, hc, htv, htr, get_science_file_model,
            isNetworkOp, List.filter_append]
        · simp [process_file, hsf, hc, htv, htr, get_science_file_model,
            isNetworkOp, List.filter_append, push_track_loop_network_dry]

/-- C9 witness: the dry-run noninterference facts at a concrete run. -/
theorem process_file_dry_run_noninterference_witness :
    (process_file runInputTwoOutputs true).effects.filter isNetworkOp = [] ∧
    (process_file runInputTwoOutputs true).derived_keys =
      (process_file runInputTwoOutputs false).derived_keys := by
  have h := process_file_dry_run_noninterference runInputTwoOutputs
  exact ⟨h.1, h.2.2⟩

/-- C4 counterexample: a calibration callable raising `FileNotFoundError` —
an exception other than the domain `ValueError` — is not re-raised by
`_calibrate_file`; the error is swallowed and the function returns `None`. -/
theorem calibrate_file_fnf_counterexample :
    calibrate_file none true (.ok "")
      (.error (.fileNotFoundError "No such file or directory: f.bin")) =
      .ok .vNone := by rfl

/-- C4 amended: `_calibrate_file` recovers locally from both `ValueError`
and `FileNotFoundError` raised by the calibration callable — logging and
returning `None`, which the orchestrator treats as zero outputs, recording
a FAILED status and returning cleanly — and re-raises every other
exception. -/
theorem calibrate_file_error_classification
    (flag : Option String) (tb : Except PyExc String) (m : String) (e : PyExc)
    (hflag : flag ≠ some "True") (he : calRecoverable e = false)
    (inp : RunInput) (dry : Bool) (p : ParsedFilename)
    (hp : inp.science_file = .ok p) (hcal : inp.calibration = .ok .vNone) :
    calibrate_file flag true tb (.error (.valueError m)) = .ok .vNone ∧
    calibrate_file flag true tb (.error (.fileNotFoundError m)) = .ok .vNone ∧
    calibrate_file flag true tb (.error e) = .error e ∧
    (process_file inp dry).outcome = .ok () ∧
    (process_file inp dry).effects =
      (get_science_file_model inp.instrument_bucket_name inp.file_key
        inp.parsed_file_key dry).2 ++
      [.trackCall inp.file_key inp.instrument_bucket_name
        (build_status .failed
          ("Could Not Process " ++ ("/tmp/" ++ inp.parsed_file_key) ++ " Further")
          none none) none] := by
  have hcls := process_file_zero_outputs_failed inp dry p hp (Or.inr hcal)
  refine ⟨?_, ?_, ?_, hcls.1, hcls.2.1⟩
  · simp [calibrate_file, hflag]
  · simp [calibrate_file, hflag]
  · cases e <;> simp_all [calibrate_file, calRecoverable]

/-- C4 witness: the error classification at concrete inputs. -/
theorem calibrate_file_error_classification_witness :
    calibrate_file none true (.ok "") (.error (.valueError "Not enough data")) =
      .ok .vNone ∧
    calibrate_file none true (.ok "")
      (.error (.otherError "RuntimeError: boom")) =
      .error (.otherError "RuntimeError: boom") ∧
    (process_file { runInputZeroOutputs with calibration := .ok .vNone }
      false).outcome = .ok () := by
  have h := calibrate_file_error_classification none (.ok "") "Not enough data"
    (.otherError "RuntimeError: boom") (by simp) rfl
    { runInputZeroOutputs with calibration := .ok .vNone } false
    ⟨"nemisis", "l0", "2023042-000000", "v0"⟩ rfl rfl
  exact ⟨h.1, h.2.2.1, h.2.2.2.1⟩

/-- C3 counterexample: with the database secret configured, a transient
`psycopg2.OperationalError` raised while connecting to the store is caught
by the body's blanket `except Exception` and the call returns `None` after
a single attempt — it is neither retried nor re-raised; likewise a
validation failure (nonexistent local file) returns `None` after one
attempt instead of raising to the caller. -/
theorem track_metatracker_no_retry_counterexample :
    track_file_metatracker trackEnvTransient = (.ok none, 1) ∧
    track_file_metatracker trackEnvMissingFile = (.ok none, 1) := by
  exact ⟨rfl, rfl⟩

/-- C3 amended: with the database secret configured, every exception raised
while validating the file path or while connecting to or writing the store
— transient `OperationalError` and validation errors alike — is caught
inside `_track_file_metatracker`, which returns `None` after exactly one
attempt; the tenacity retry policy (retry on `OperationalError`, random
wait of 2 to 10 units, 10 attempts, reraise) never engages because no
exception escapes the decorated body. -/
theorem track_metatracker_swallows_exceptions (env : TrackEnv)
    (hs : env.rds_secret_arn ≠ none)
    (h : (∃ e, env.store = .error e) ∨ env.file_path_truthy = false ∨
      env.file_path_is_path = false ∨ env.file_exists = false) :
    track_file_metatracker env = (.ok none, 1) := by
  obtain ⟨arn, pt, pip, pe, st⟩ := env
  cases arn with
  | none => exact absurd rfl hs
  | some a =>
    have hbody : track_body ⟨some a, pt, pip, pe, st⟩ = .ok none := by
      rcases h with ⟨e, he⟩ | h | h | h
      · cases he
        cases pt <;> cases pip <;> cases pe <;> simp [track_body]
      · cases h
        simp [track_body]
      · cases h
        cases pt <;> simp [track_body]
      · cases h
        cases pt <;> cases pip <;> simp [track_body]
    simp [track_file_metatracker, retry_policy, retry_go, hbody]

/-- C3 witness: the swallowing behavior at a concrete validation-failure
environment (a `file_path` that is not a `Path`). -/
theorem track_metatracker_swallows_exceptions_witness :
    track_file_metatracker trackEnvBadPath = (.ok none, 1) := by
  exact track_metatracker_swallows_exceptions trackEnvBadPath (by simp [trackEnvBadPath])
    (Or.inr (Or.inr (Or.inl rfl)))

/-- C6: with `RDS_SECRET_ARN` absent, the tracker returns `None`, and on the
N at least 1 calibration-output path `_process_file` unpacks that `None`
into two names, raising `TypeError` — the run fails instead of completing
with lineage tracking merely disabled (the zero-output path, whose tracker
result is discarded, does return normally). -/
theorem process_file_no_secret_typeerror :
    (track_file_metatracker trackEnvNoSecret).1 = .ok none ∧
    (process_file runInputNoSecret false).outcome =
      .error (.typeError "cannot unpack non-iterable NoneType") ∧
    (process_file { runInputNoSecret with calibration := .ok (.vList []) }
      false).outcome = .ok () := by
  exact ⟨rfl, rfl, rfl⟩

/-- C7: a failed-files query returning two rows produces zero, not two,
asynchronous dispatches: the query selects three columns per row while the
dispatch loop unpacks each row into two names, so the first row raises
`ValueError`, which the surrounding `except` logs, ending `fetch_data` with
no invocation dispatched. -/
theorem fetch_data_two_rows_zero_dispatches :
    (∀ row ∈ fetchEnvTwoFailedRows.query_results,
      row.length = fetch_query_columns.length) ∧
    fetchEnvTwoFailedRows.query_results.length = 2 ∧
    fetch_data fetchEnvTwoFailedRows =
      [.logError "Error in fetch_data(): too many values to unpack (expected 2)"] ∧
    (fetch_data fetchEnvTwoFailedRows).filter isInvoke = [] := by
  refine ⟨?_, rfl, rfl, rfl⟩
  intro row hrow
  simp [fetchEnvTwoFailedRows, fetch_query_columns] at hrow ⊢
  rcases hrow with h | h <;> simp [h]

/-- C8 counterexample: a direct-shape event carrying one S3 record is not
dispatched to the orchestrator: the adapter finds no `Sns` key, decodes
zero records, delegates to the failure requeue driver and returns the
requeue 200 response, with no per-file processing effect. -/
theorem handle_event_direct_shape_counterexample :
    handle_event (fun _ _ => .ok ()) directShapeEvent =
      (⟨200, "Reprocessed data from database."⟩, [.fetchData]) := by rfl

/-- C8 amended: an event of the direct (non-SNS-wrapped) shape is accepted
only in the sense that it does not error: for every such event the adapter
extracts no (bucket, key) pair, delegates to the failure requeue driver and
returns 200, never invoking the orchestrator. -/
theorem handle_event_direct_shape_requeue
    (proc : String → String → Except PyExc Unit) (item : S3Item)
    (rest : List EventRecord) :
    handle_event proc ⟨some (.direct item :: rest)⟩ =
      (⟨200, "Reprocessed data from database."⟩, [.fetchData]) := by rfl

/-- C8 witness: the amended behavior at a concrete direct-shape event with a
different record and a failing orchestrator oracle. -/
theorem handle_event_direct_shape_requeue_witness :
    handle_event (fun _ _ => .error (.otherError "boom"))
      ⟨some [.direct (.record "hermes-merit" "l0/file.bin")]⟩ =
      (⟨200, "Reprocessed data from database."⟩, [.fetchData]) := by
  exact handle_event_direct_shape_requeue (fun _ _ => .error (.otherError "boom"))
    (.record "hermes-merit" "l0/file.bin") []

theorem handle_loop_ok_iff (proc : String → String → Except PyExc Unit)
    (items : List S3Item) :
    (∃ effs, handle_loop proc items = .ok effs) ↔
      ∀ it ∈ items, ∃ b k, it = .record b k ∧ proc b k = .ok () := by
  induction items with
  | nil => simp [handle_loop]
  | cons it rest ih =>
    cases it with
    | malformed => simp [handle_loop]
    | record b k =>
      rcases hpk : proc b k with e | u
      · simp [handle_loop, hpk]
      · cases u
        rcases hr : handle_loop proc rest with ⟨e2, effs2⟩ | effs2
        · simp [handle_loop, hpk, hr] at ih ⊢
          exact ih
        · simp [handle_loop, hpk, hr] at ih ⊢
          exact ⟨⟨b, k, ⟨rfl, rfl⟩, hpk⟩, ih⟩


/-- C5: the adapter always returns a response — 200 or 500, never a
propagated exception.  It returns 200 exactly when the decoded message
contains no records (having delegated to the failure requeue driver) or
when the records list is non-empty and the orchestrator, invoked once per
(bucket, key) pair, succeeded on every one; every exception in the chain
is converted to a 500 whose body is the JSON-encoded error message. -/
theorem handle_event_status_codes (proc : String → String → Except PyExc Unit)
    (event : Event) :
    ((handle_event proc event).1.statusCode = 200 ∨
      (handle_event proc event).1.statusCode = 500) ∧
    ((handle_event proc event).1.statusCode = 200 ↔
      (decode_records event = .ok [] ∧ (handle_event proc event).2 = [.fetchData]) ∨
      (∃ items, decode_records event = .ok items ∧ items ≠ [] ∧
        ∀ it ∈ items, ∃ b k, it = .record b k ∧ proc b k = .ok ())) ∧
    ((handle_event proc event).1.statusCode = 500 →
      ∃ m, (handle_event proc event).1.body = json_error m) := by
  rcases hd : decode_records event with e | items
  · refine ⟨Or.inr (by simp [handle_event, hd]), ?_,
      fun _ => ⟨e.message, by simp [handle_event, hd]⟩⟩
    simp [handle_event, hd]
  · cases items with
    | nil =>
      refine ⟨Or.inl (by simp [handle_event, hd]), ?_, ?_⟩
      · simp [handle_event, hd]
      · intro h
        simp [handle_event, hd] at h
    | cons it rest =>
      rcases hl : handle_loop proc (it :: rest) with ⟨e2, effs2⟩ | effs2
      · refine ⟨Or.inr (by simp [handle_event, hd, hl]), ?_,
          fun _ => ⟨e2.message, by simp [handle_event, hd, hl]⟩⟩
        constructor
        · intro h
          simp [handle_event, hd, hl] at h
        · rintro (⟨h, _⟩ | ⟨items2, hi, _, hall⟩)
          · simp at h
          · have hitems : items2 = it :: rest := (Except.ok.inj hi).symm
            subst hitems
            rcases (handle_loop_ok_iff proc (it :: rest)).mpr hall with ⟨effs3, he3⟩
            rw [hl] at he3
            exact Except.noConfusion he3
      · refine ⟨Or.inl (by simp [handle_event, hd, hl]), ?_, ?_⟩
        · constructor
          · intro _
            exact Or.inr ⟨it :: rest, rfl, by simp,
              (handle_loop_ok_iff proc (it :: rest)).mp ⟨effs2, hl⟩⟩
          · intro _
            simp [handle_event, hd, hl]
        · intro h
          simp [handle_event, hd, hl] at h

/-- C5 witness: concrete events through the adapter — an SNS-wrapped
single-record event with a succeeding orchestrator yields 200, and the same
event with a failing orchestrator yields 500 with a JSON error body. -/
theorem handle_event_status_codes_witness :
    (handle_event (fun _ _ => .ok ()) wrappedOneRecordEvent).1.statusCode = 200 ∧
    (handle_event (fun _ _ => .error (.otherError "boom"))
      wrappedOneRecordEvent).1.statusCode = 500 ∧
    (handle_event (fun _ _ => .error (.otherError "boom"))
      wrappedOneRecordEvent).1.body = json_error "boom" := by
  have h1 := handle_event_status_codes (fun _ _ => .ok ()) wrappedOneRecordEvent
  have h2 := handle_event_status_codes (fun _ _ => .error (.otherError "boom"))
    wrappedOneRecordEvent
  refine ⟨?_, ?_, by rfl⟩
  · exact h1.2.1.mpr (Or.inr ⟨[.record "hermes-spani"
      "l0/2023/042/hermes_SPANI_l0_2023042-000000_v0.bin"], rfl, by simp,
      by rintro it hit; simp at hit; subst hit; exact ⟨_, _, rfl, rfl⟩⟩)
  · rcases h2.1 with h | h
    · exfalso
      rcases h2.2.1.mp h with ⟨hc, _⟩ | ⟨items2, hi, hne, hall⟩
      · exact absurd hc (by simp [decode_records, wrappedOneRecordEvent])
      · have : items2 = [.record "hermes-spani"
            "l0/2023/042/hermes_SPANI_l0_2023042-000000_v0.bin"] := by
          have hdec : decode_records wrappedOneRecordEvent =
              .ok [.record "hermes-spani"
                "l0/2023/042/hermes_SPANI_l0_2023042-000000_v0.bin"] := rfl
          rw [hdec] at hi
          exact (Except.ok.inj hi).symm
        subst this
        rcases hall (.record "hermes-spani"
            "l0/2023/042/hermes_SPANI_l0_2023042-000000_v0.bin") (by simp)
          with ⟨b, k, _, hok⟩
        exact Except.noConfusion hok
    · exact h
